import Mathlib

/-!
Verification development for the imgbb client module (`src/index.ts`).

The module is embedded shallowly:

* JavaScript strings are `String`; a possibly-`undefined` string is
  `Option String` (`none` = `undefined` / field absent).
* `FormData` is an ordered entry list `List (String × FDValue)`; `set`
  follows the WHATWG semantics (replace the first entry of that name and
  drop the rest, otherwise append).
* The module-level mutable credentials (`IMGBB_KEY`, `IMGBB_COOKIE`,
  `IMGBB_USERNAME`) are threaded as an explicit `Creds` record.
* Each operation is modelled up to its single outbound HTTP request: the
  result is `configError` (the `ensureCreds` throw), `retNone` (returned
  `undefined` without touching the network) or `fetch r` with the request
  `r` that would be handed to the transport.  The non-2xx response path of
  `apiRequest` is modelled separately by `apiHandleResponse`.
* JSON values are `Json` (numbers restricted to integers, which covers
  every value the claims exercise).
-/

namespace Imgbb

/-- JavaScript truthiness of a string: only `""` is falsy. -/
def jsStrTruthy (s : String) : Bool := !s.isEmpty

/-- JavaScript `a || b` for plain strings. -/
def jsOr (a b : String) : String := if a.isEmpty then b else a

/-- JavaScript `a || b` where `a` may be `undefined` and the result is a
plain string. -/
def jsOrStr (a : Option String) (b : String) : String :=
  match a with
  | some s => if s.isEmpty then b else s
  | none => b

/-- JavaScript `a || b` where both sides may be `undefined`. -/
def jsOrOpt (a b : Option String) : Option String :=
  match a with
  | some s => if s.isEmpty then b else some s
  | none => b

/-- Template-literal interpolation of a possibly-`undefined` string:
`undefined` prints as `"undefined"`. -/
def jsTemplate : Option String → String
  | some s => s
  | none => "undefined"

/-- A value stored in a `FormData` entry: a plain string, or a blob with
its MIME type and the filename passed to `set`. -/
inductive FDValue where
  | str (s : String)
  | blob (mime : Option String) (filename : String)
deriving DecidableEq, Repr

/-- A `FormData` object: its ordered entry list. -/
def FormData := List (String × FDValue)
deriving DecidableEq, Repr

/-- The empty `FormData` (`new FormData()`). -/
def FormData.empty : FormData := []

/-- Remove every entry with the given name. -/
def fdRemove : FormData → String → FormData
  | [], _ => []
  | (k, v) :: rest, n => if k == n then fdRemove rest n else (k, v) :: fdRemove rest n

/-- WHATWG `FormData.set(name, value)`: if entries named `name` exist,
replace the first with the new value and remove the others; otherwise
append the entry at the end. -/
def fdSet : FormData → String → FDValue → FormData
  | [], n, v => [(n, v)]
  | (k, w) :: rest, n, v =>
    if k == n then (n, v) :: fdRemove rest n else (k, w) :: fdSet rest n v

/-- All values of entries with the given name, in entry-list order
(`FormData.getAll`). -/
def fdGetAll (fd : FormData) (n : String) : List FDValue :=
  (fd.filter (fun e => e.1 == n)).map (fun e => e.2)

/-- Source constant `host = "imgbb.com"`. -/
def host : String := "imgbb.com"

/-- Source constant `website = "https://" + host`. -/
def website : String := "https://" ++ host

/-- Source constant `endpoint = "/json"`. -/
def endpoint : String := "/json"

/-- The module-level credential state `IMGBB_KEY` / `IMGBB_COOKIE` /
`IMGBB_USERNAME`; each field is `undefined` until configured. -/
structure Creds where
  key : Option String
  cookie : Option String
  username : Option String
deriving DecidableEq, Repr

/-- The `ApiConfig` argument of `config`: all three fields optional. -/
structure ApiConfig where
  key : Option String := none
  cookie : Option String := none
  username : Option String := none
deriving DecidableEq, Repr

/-- `config(c)`: the destructuring assignment
`({ key: IMGBB_KEY, cookie: IMGBB_COOKIE, username: IMGBB_USERNAME } = c)`
writes all three module variables from `c`, ignoring the previous state. -/
def config (c : ApiConfig) (_prev : Creds) : Creds :=
  { key := c.key, cookie := c.cookie, username := c.username }

/-- JavaScript falsiness of one credential field: `undefined` or `""`. -/
def credFalsy : Option String → Bool
  | none => true
  | some s => s.isEmpty

/-- The condition under which `ensureCreds()` throws
(`!IMGBB_KEY || !IMGBB_COOKIE || !IMGBB_USERNAME`). -/
def ensureCredsFail (st : Creds) : Bool :=
  credFalsy st.key || credFalsy st.cookie || credFalsy st.username

/-- The `ApiOptions` argument of `apiRequest`; absent optional fields are
`none`, and an absent `endpointUseOrigin` is the falsy `false`. -/
structure ApiOptions where
  body : FormData
  username : Option String := none
  cookie : Option String := none
  origin : Option String := none
  endpoint : Option String := none
  endpointUseOrigin : Bool := false

/-- The outbound POST request an operation hands to `fetch`: target URL,
the two explicit headers, and the multipart body. -/
structure FetchRequest where
  url : String
  originHeader : String
  cookieHeader : String
  rbody : FormData
deriving DecidableEq, Repr

/-- How far an operation gets before suspending on (or skipping) the
network: the `ensureCreds` throw, an early `return` with `undefined`, or
exactly one transport invocation with the given request. -/
inductive OpResult where
  | configError
  | retNone
  | fetch (r : FetchRequest)
deriving DecidableEq, Repr

/-- The request `apiRequest(opts)` issues: after `ensureCreds`, the origin
is `opts.origin || "https://" + (opts.username || IMGBB_USERNAME) + "." + host`
and the URL is
`opts.endpoint || (opts.endpointUseOrigin ? origin : website) + endpoint`;
the headers are the cookie (`opts.cookie || IMGBB_COOKIE`) and the origin. -/
def apiRequest (st : Creds) (opts : ApiOptions) : OpResult :=
  if ensureCredsFail st then .configError
  else
    let origin :=
      jsOrStr opts.origin
        ("https://" ++ jsTemplate (jsOrOpt opts.username st.username) ++ "." ++ host)
    .fetch
      { url := jsOrStr opts.endpoint
          ((if opts.endpointUseOrigin then origin else website) ++ endpoint)
        originHeader := origin
        cookieHeader := jsOrStr opts.cookie (jsTemplate st.cookie)
        rbody := opts.body }

/-- A JSON value; numbers are restricted to integers (every JSON body the
claims exercise is covered). -/
inductive Json where
  | null
  | bool (b : Bool)
  | num (n : Int)
  | str (s : String)
  | arr (elems : List Json)
  | obj (fields : List (String × Json))

/-- Optional-chaining property access `v?.name`: `undefined` (`none`)
unless `v` is an object with that field (first occurrence wins, as in
`JSON.parse`d objects where duplicates have already collapsed). -/
def jsGet : Json → String → Option Json
  | .obj fields, n =>
    match fields.find? (fun f => f.1 == n) with
    | some f => some f.2
    | none => none
  | _, _ => none

/-- JavaScript truthiness of a JSON value. -/
def jsTruthy : Json → Bool
  | .null => false
  | .bool b => b
  | .num n => n != 0
  | .str s => !s.isEmpty
  | .arr _ => true
  | .obj _ => true

mutual

/-- Template-literal stringification of a JSON value (`String(v)`). -/
def jsToString : Json → String
  | .null => "null"
  | .bool b => cond b "true" "false"
  | .num n => toString n
  | .str s => s
  | .arr l => jsArrString l
  | .obj _ => "[object Object]"

/-- `Array.prototype.toString`: elements joined with `","`, a `null`
element printing as the empty string. -/
def jsArrString : List Json → String
  | [] => ""
  | [j] => jsElemString j
  | j :: js => jsElemString j ++ "," ++ jsArrString js

/-- One array element inside `join`: `null` becomes `""`. -/
def jsElemString : Json → String
  | .null => ""
  | .bool b => cond b "true" "false"
  | .num n => toString n
  | .str s => s
  | .arr l => jsArrString l
  | .obj _ => "[object Object]"

end

/-- The fallback string of the non-2xx branch. -/
def noErrorMessage : String := "no error message provided"

/-- The interpolated `data?.error?.message || "no error message provided"`
of the non-2xx branch, given the parsed body `data`. -/
def vendorMessage (data : Json) : String :=
  match (jsGet data "error").bind (fun e => jsGet e "message") with
  | some v => if jsTruthy v then jsToString v else noErrorMessage
  | none => noErrorMessage

/-- `Response.ok`: status in the inclusive range 200–299. -/
def respOk (status : Nat) : Bool := 200 ≤ status && status ≤ 299

/-- What the non-2xx branch of `apiRequest` throws. -/
inductive ApiFailure where
  | jsonParseError
  | apiError (status : Nat) (message : String)
deriving DecidableEq, Repr

deriving instance DecidableEq for Except

/-- The response handling of `apiRequest` (lines 197–205): on a 2xx status
the response is returned; otherwise `await resp.json()` runs first — an
unparseable (or missing, hence unparseable) body makes it reject with a
`SyntaxError`, modelled as `body = none` — and only then is the `Error`
with `response status <s>: <message>` thrown. -/
def apiHandleResponse (status : Nat) (body : Option Json) : Except ApiFailure Unit :=
  if respOk status then .ok ()
  else
    match body with
    | none => .error .jsonParseError
    | some data => .error (.apiError status (vendorMessage data))

/-- The wire values of the `ImageUploadExpiration` string enum. -/
inductive ImageUploadExpiration where
  | OneHour
  | SixMonths
  | Never
deriving DecidableEq, Repr

/-- The string each enum member denotes in the source
(`OneHour = "PT1H"`, `SixMonths = "P6M"`, `Never = ""`). -/
def ImageUploadExpiration.wire : ImageUploadExpiration → String
  | .OneHour => "PT1H"
  | .SixMonths => "P6M"
  | .Never => ""

/-- The image payload of an upload: already a `Blob` (carrying its MIME
type), or a raw `Buffer` to be wrapped. Byte contents are not observable
by any claim and are not modelled. -/
inductive ImageInput where
  | blobIn (mime : Option String)
  | bufferIn
deriving DecidableEq, Repr

/-- The `ImageUploadOptions` argument of `uploadImage`; absent optional
fields are `none`. -/
structure ImageUploadOptions where
  image : ImageInput
  username : Option String := none
  expiration : Option ImageUploadExpiration := none
  album : Option String := none
  name : Option String := none

/-- `uploadImage(opts)` up to its transport invocation.  `getType` is the
external MIME lookup collaborator (returning `none` for JavaScript `null`)
and `now` is `Date.now()`.  After `ensureCreds`, defaults are overlaid
(`username = IMGBB_USERNAME`, `expiration = SixMonths`, `name =
"image.png"`), the payload is normalized to a blob (a `Buffer` is wrapped
with type `getType(opts.name || "") || undefined`; the subsequent
`instanceof Blob` guard can never fire and is omitted), and the fixed-name
multipart body is built and handed to `apiRequest({ body })`. -/
def uploadImage (st : Creds) (getType : String → Option String) (now : Nat)
    (opts : ImageUploadOptions) : OpResult :=
  if ensureCredsFail st then .configError
  else
    let expiration := opts.expiration.getD .SixMonths
    let name := opts.name.getD "image.png"
    let mimeType : Option String :=
      match getType (jsOr name "") with
      | some t => if t.isEmpty then none else some t
      | none => none
    let blobMime : Option String :=
      match opts.image with
      | .blobIn m => m
      | .bufferIn => mimeType
    let body :=
      fdSet (fdSet (fdSet (fdSet (fdSet (fdSet (fdSet FormData.empty
        "action" (.str "upload"))
        "album_id" (.str (jsOrStr opts.album "")))
        "auth_token" (.str (jsTemplate st.key)))
        "expiration" (.str (jsOr expiration.wire "")))
        "source" (.blob blobMime name))
        "timestamp" (.str (toString now)))
        "type" (.str "file")
    apiRequest st { body := body }

/-- The `id` argument of `removeImages`: a single string or an array. -/
inductive RemoveArg where
  | single (s : String)
  | many (ids : List String)
deriving DecidableEq, Repr

/-- JavaScript `id.length` for either shape of the argument. -/
def RemoveArg.jsLength : RemoveArg → Nat
  | .single s => s.length
  | .many ids => ids.length

/-- The delete body `removeImages` builds for a non-empty argument:
`action`/`auth_token`, then the single branch
(`single`/`delete`/`deleting[id]`) or the list branch
(`from`/`multiple`/`delete` and one `set` of `deleting[ids][]` per element
— `set`, not `append`, exactly as in the source). -/
def removeBody (st : Creds) (arg : RemoveArg) : FormData :=
  let b0 := fdSet (fdSet FormData.empty
    "action" (.str "delete"))
    "auth_token" (.str (jsTemplate st.key))
  match arg with
  | .single id =>
    fdSet (fdSet (fdSet b0
      "single" (.str "true"))
      "delete" (.str "image"))
      "deleting[id]" (.str id)
  | .many ids =>
    let b1 := fdSet (fdSet (fdSet b0
      "from" (.str "list"))
      "multiple" (.str "true"))
      "delete" (.str "images")
    ids.foldl (fun b i => fdSet b "deleting[ids][]" (.str i)) b1

/-- `removeImages(id)` up to its transport invocation: `ensureCreds`
first, then the `id.length == 0` early return, then the body is built and
handed to `apiRequest({ body, endpointUseOrigin: true })`. -/
def removeImages (st : Creds) (arg : RemoveArg) : OpResult :=
  if ensureCredsFail st then .configError
  else if arg.jsLength == 0 then .retNone
  else apiRequest st { body := removeBody st arg, endpointUseOrigin := true }

/-- JavaScript `\w`: ASCII letters, digits and underscore. -/
def isWordChar (c : Char) : Bool := c.isAlpha || c.isDigit || c == '_'

/-- An unescaped `.` in a regex without the `s` flag: any character except
a line terminator. -/
def regexDot (c : Char) : Bool :=
  c != '\n' && c != '\r' && c.val != 0x2028 && c.val != 0x2029

/-- Consume a case-insensitive literal prefix, returning the rest. -/
def ciStrip : List Char → List Char → Option (List Char)
  | [], s => some s
  | _ :: _, [] => none
  | p :: ps, c :: cs => if c.toLower == p.toLower then ciStrip ps cs else none

/-- Consume `https?:\/\/` case-insensitively.  The optional `s` is
deterministic: when the character after `http` is an `s` the no-`s`
alternative would need `:` at that same position, so no backtracking can
succeed where this fails. -/
def stripScheme (s : List Char) : Option (List Char) :=
  match ciStrip ['h', 't', 't', 'p'] s with
  | none => none
  | some r1 =>
    let r2 := match r1 with
      | c :: rest => if c.toLower == 's' then rest else r1
      | [] => r1
    match r2 with
    | ':' :: '/' :: '/' :: r3 => some r3
    | _ => none

/-- The `(\w+)\/` tail: a maximal non-empty run of word characters
followed by `/`.  Backtracking to a shorter run cannot help, since the
character after any shorter run is a word character, never `/`. -/
def wordSegSlash (s : List Char) : Option String :=
  let w := s.takeWhile isWordChar
  if w.isEmpty then none
  else
    match s.dropWhile isWordChar with
    | '/' :: _ => some (String.mk w)
    | _ => none

/-- The host part `i.ibb.co\/` of the regex, dots unescaped: literal `i`,
any character, `ibb`, any character, `co`, then `/`, all letters
case-insensitive; then the captured path segment. -/
def cdnHostMatch : List Char → Option String
  | c1 :: c2 :: c3 :: c4 :: c5 :: c6 :: c7 :: c8 :: '/' :: rest =>
    if c1.toLower == 'i' && regexDot c2 && c3.toLower == 'i' && c4.toLower == 'b'
        && c5.toLower == 'b' && regexDot c6 && c7.toLower == 'c' && c8.toLower == 'o' then
      wordSegSlash rest
    else none
  | _ => none

/-- `url.match(/^https?:\/\/i.ibb.co\/(\w+)\//i)?.[1]`: the first capture
of the anchored match, or `undefined`. -/
def cdnRegexCapture (url : String) : Option String :=
  match stripScheme url.data with
  | none => none
  | some rest => cdnHostMatch rest

/-- The argument of `getImageIdByUrl`: a raw URL string, or a user object
whose `image` field may be absent. -/
inductive UrlOrUser where
  | url (s : String)
  | user (image : Option String)

/-- `getImageIdByUrl(urlOrUser)`: pick the string (the argument itself or
its `image` field), return `null` when it is falsy, else the regex capture
with `|| null` collapsing a falsy capture to `null`. -/
def getImageIdByUrl (u : UrlOrUser) : Option String :=
  let url : Option String := match u with
    | .url s => some s
    | .user image => image
  match url with
  | none => none
  | some s =>
    if s.isEmpty then none
    else
      match cdnRegexCapture s with
      | none => none
      | some cap => if cap.isEmpty then none else some cap

/-- Written from the spec's words, for comparison with `cdnRegexCapture`:
an http or https scheme followed by the literal host `i.ibb.co` (real
dots), a `/`, and a non-empty word segment delimited by `/`, all
case-insensitively. -/
def specLiteralCdnShape (url : String) : Bool :=
  match stripScheme url.data with
  | none => false
  | some rest =>
    match ciStrip ("i.ibb.co/".data) rest with
    | none => false
    | some r2 => (wordSegSlash r2).isSome

/-- The multipart body of the request an operation sent, if it reached the
transport. -/
def sentBody : OpResult → Option FormData
  | .fetch r => some r.rbody
  | _ => none

/-- The URL of the request an operation sent, if it reached the
transport. -/
def sentUrl : OpResult → Option String
  | .fetch r => some r.url
  | _ => none

/-- The origin header of the request an operation sent, if it reached the
transport. -/
def sentOrigin : OpResult → Option String
  | .fetch r => some r.originHeader
  | _ => none

/-- The per-user subdomain origin `https://<username>.imgbb.com`. -/
def perUserOrigin (st : Creds) : String :=
  "https://" ++ jsTemplate st.username ++ "." ++ host

/-- C1: evaluating `removeImages(["a","b"])` (with configured credentials)
shows the built body carries exactly one `deleting[ids][]` entry, `"b"`:
the loop uses `FormData.set`, which replaces the previous entry, so only
the last identifier survives — not one entry per identifier in order as
the claim states. -/
theorem removeImages_list_keeps_only_last_id :
    (sentBody (removeImages ⟨some "k", some "c", some "u"⟩ (.many ["a", "b"]))).map
        (fun b => fdGetAll b "deleting[ids][]") = some [.str "b"] := by decide

/-- C2, counterexample: on HTTP 400 with an unparseable body, `apiRequest`
propagates the `resp.json()` rejection (a `SyntaxError`) instead of the
claimed `ApiError` with the fixed placeholder message. -/
theorem apiRequest_unparseable_body_throws_parse_error :
    apiHandleResponse 400 none = .error .jsonParseError ∧
      apiHandleResponse 400 none ≠ .error (.apiError 400 noErrorMessage) := by decide

/-- C2, amended: on every non-2xx status, if the body parses as JSON the
thrown error carries the HTTP status and `data?.error?.message` (the fixed
placeholder when that field is absent or falsy, `"bad token"` for the
claim's example body); if the body is missing or unparseable as JSON, the
JSON parse rejection propagates instead of an `ApiError`. -/
theorem apiRequest_non2xx_error_reporting (status : Nat) (h : respOk status = false) :
    (∀ data : Json, apiHandleResponse status (some data) =
        .error (.apiError status (vendorMessage data))) ∧
      apiHandleResponse status none = .error .jsonParseError ∧
      vendorMessage (.obj [("error", .obj [("message", .str "bad token")])]) = "bad token" ∧
      vendorMessage (.obj []) = noErrorMessage := by
  refine ⟨fun data => ?_, ?_, by decide, by decide⟩ <;> simp [apiHandleResponse, h]

/-- Witness for C2's amended theorem at status 400. -/
theorem apiRequest_non2xx_error_reporting_witness :
    respOk 400 = false ∧
      apiHandleResponse 400 (some (.obj [("error", .obj [("message", .str "bad token")])])) =
        .error (.apiError 400 "bad token") ∧
      apiHandleResponse 400 none = .error .jsonParseError :=
  ⟨by decide,
   ((apiRequest_non2xx_error_reporting 400 (by decide)).1
     (.obj [("error", .obj [("message", .str "bad token")])])).trans (by decide),
   (apiRequest_non2xx_error_reporting 400 (by decide)).2.1⟩

/-- C3: whenever any of the three credential fields is absent or empty,
`apiRequest`, `uploadImage` and `removeImages` (for every argument,
including the empty array) all stop with the `ensureCreds` throw — the
outcome is `configError`, never a `fetch`, so the transport is invoked
zero times. -/
theorem missing_credentials_block_all_operations (st : Creds)
    (h : credFalsy st.key = true ∨ credFalsy st.cookie = true ∨
      credFalsy st.username = true) :
    (∀ opts, apiRequest st opts = .configError) ∧
      (∀ getType now opts, uploadImage st getType now opts = .configError) ∧
      (∀ arg, removeImages st arg = .configError) := by
  have hf : ensureCredsFail st = true := by
    unfold ensureCredsFail
    rcases h with h | h | h <;> simp [h]
  exact ⟨fun opts => by simp [apiRequest, hf],
         fun getType now opts => by simp [uploadImage, hf],
         fun arg => by simp [removeImages, hf]⟩

/-- Witness for C3 with an absent key. -/
theorem missing_credentials_block_all_operations_witness :
    credFalsy (Creds.mk none (some "c") (some "u")).key = true ∧
      apiRequest ⟨none, some "c", some "u"⟩ { body := FormData.empty } = .configError ∧
      uploadImage ⟨none, some "c", some "u"⟩ (fun _ => none) 0
        { image := .bufferIn } = .configError ∧
      removeImages ⟨none, some "c", some "u"⟩ (.many []) = .configError :=
  ⟨by decide,
   (missing_credentials_block_all_operations ⟨none, some "c", some "u"⟩
     (Or.inl (by decide))).1 _,
   (missing_credentials_block_all_operations ⟨none, some "c", some "u"⟩
     (Or.inl (by decide))).2.1 _ _ _,
   (missing_credentials_block_all_operations ⟨none, some "c", some "u"⟩
     (Or.inl (by decide))).2.2 _⟩

/-- C4: with all credentials configured, `removeImages([])` hits the
`id.length == 0` early return — the outcome is `retNone` (resolved
`undefined`), so no body is built and the transport is never invoked. -/
theorem removeImages_empty_array_is_noop (st : Creds)
    (h : ensureCredsFail st = false) :
    removeImages st (.many []) = .retNone := by
  simp [removeImages, h, RemoveArg.jsLength]

/-- Witness for C4 with concrete credentials. -/
theorem removeImages_empty_array_is_noop_witness :
    ensureCredsFail ⟨some "k", some "c", some "u"⟩ = false ∧
      removeImages ⟨some "k", some "c", some "u"⟩ (.many []) = .retNone :=
  ⟨by decide, removeImages_empty_array_is_noop ⟨some "k", some "c", some "u"⟩ (by decide)⟩

/-- C10: with all credentials configured, `removeImages("")` also hits the
length-based emptiness check (`"".length == 0`) and returns `undefined`
without building a body or reaching the transport; the single-identifier
branch is never entered. -/
theorem removeImages_empty_string_is_noop (st : Creds)
    (h : ensureCredsFail st = false) :
    removeImages st (.single "") = .retNone := by
  simp [removeImages, h, RemoveArg.jsLength]

/-- Witness for C10 with concrete credentials. -/
theorem removeImages_empty_string_is_noop_witness :
    ensureCredsFail ⟨some "k", some "c", some "u"⟩ = false ∧
      removeImages ⟨some "k", some "c", some "u"⟩ (.single "") = .retNone :=
  ⟨by decide, removeImages_empty_string_is_noop ⟨some "k", some "c", some "u"⟩ (by decide)⟩

/-- C5: evaluating the code at the failing input `"https://ixibbxco/abc/"`
— whose host is not `i.ibb.co` (the spec-shaped matcher with literal dots
rejects it) — `getImageIdByUrl` nevertheless returns `"abc"`, because the
unescaped dots of the source regex match any character. -/
theorem getImageIdByUrl_accepts_non_ibb_host :
    getImageIdByUrl (.url "https://ixibbxco/abc/") = some "abc" ∧
      specLiteralCdnShape "https://ixibbxco/abc/" = false := by decide

/-- C6: the three example evaluations — the CDN URL yields `"XYZ789"`, the
non-CDN URL yields no match, and an object with an absent `image` field
yields no match without throwing. -/
theorem getImageIdByUrl_examples :
    getImageIdByUrl (.url "https://i.ibb.co/XYZ789/pic.png") = some "XYZ789" ∧
      getImageIdByUrl (.url "https://example.com/pic.png") = none ∧
      getImageIdByUrl (.user none) = none := by decide

/-- C7: with credentials configured, the upload body's `expiration` field
is `"P6M"` when the option is unset, the enum's wire value otherwise — in
particular `""` for `Never` and `"PT1H"` for `OneHour`. -/
theorem uploadImage_expiration_field (st : Creds) (getType : String → Option String)
    (now : Nat) (opts : ImageUploadOptions) (h : ensureCredsFail st = false) :
    (sentBody (uploadImage st getType now opts)).map (fun b => fdGetAll b "expiration") =
        some [.str (match opts.expiration with
          | none => "P6M"
          | some e => e.wire)] ∧
      ImageUploadExpiration.Never.wire = "" ∧
      ImageUploadExpiration.OneHour.wire = "PT1H" := by
  refine ⟨?_, rfl, rfl⟩
  cases hexp : opts.expiration with
  | none =>
    simp [uploadImage, apiRequest, h, hexp, sentBody, fdGetAll, fdSet, fdRemove,
      FormData.empty, ImageUploadExpiration.wire, jsOr]
    decide
  | some e =>
    cases e <;>
      simp [uploadImage, apiRequest, h, hexp, sentBody, fdGetAll, fdSet, fdRemove,
        FormData.empty, ImageUploadExpiration.wire, jsOr] <;>
      decide

/-- Witness for C7: a call leaving `expiration` unset sends `"P6M"`. -/
theorem uploadImage_expiration_field_witness :
    ensureCredsFail ⟨some "k", some "c", some "u"⟩ = false ∧
      (sentBody (uploadImage ⟨some "k", some "c", some "u"⟩ (fun _ => none) 0
          { image := .bufferIn })).map (fun b => fdGetAll b "expiration") =
        some [.str "P6M"] :=
  ⟨by decide,
   (uploadImage_expiration_field ⟨some "k", some "c", some "u"⟩ (fun _ => none) 0
     { image := .bufferIn } (by decide)).1⟩

/-- C8: with credentials configured, `removeImages` (on a non-empty
argument) posts to the per-user subdomain origin followed by the fixed
`/json` endpoint path, while `uploadImage` posts to the fixed default
host's endpoint `https://imgbb.com/json`; both send the per-user subdomain
as the origin header. -/
theorem request_routing (st : Creds) (h : ensureCredsFail st = false) :
    (∀ arg : RemoveArg, arg.jsLength ≠ 0 →
        removeImages st arg = .fetch
          { url := perUserOrigin st ++ endpoint
            originHeader := perUserOrigin st
            cookieHeader := jsTemplate st.cookie
            rbody := removeBody st arg }) ∧
      (∀ getType now opts,
        sentUrl (uploadImage st getType now opts) = some (website ++ endpoint) ∧
          sentOrigin (uploadImage st getType now opts) = some (perUserOrigin st)) ∧
      website ++ endpoint = "https://imgbb.com/json" := by
  refine ⟨fun arg hlen => ?_, fun getType now opts => ⟨?_, ?_⟩, rfl⟩
  · have hz : (arg.jsLength == 0) = false := by simpa using hlen
    simp [removeImages, apiRequest, h, hz, perUserOrigin, jsOrStr, jsOrOpt, jsTemplate,
      website, endpoint, host]
  · simp [uploadImage, apiRequest, h, sentUrl, jsOrStr, jsOrOpt, website, endpoint]
  · simp [uploadImage, apiRequest, h, sentOrigin, perUserOrigin, jsOrStr, jsOrOpt,
      jsTemplate, host]

/-- Witness for C8 at concrete credentials, a one-element delete and an
upload call. -/
theorem request_routing_witness :
    ensureCredsFail ⟨some "k", some "c", some "u"⟩ = false ∧
      RemoveArg.jsLength (.single "x") ≠ 0 ∧
      removeImages ⟨some "k", some "c", some "u"⟩ (.single "x") = .fetch
        { url := perUserOrigin ⟨some "k", some "c", some "u"⟩ ++ endpoint
          originHeader := perUserOrigin ⟨some "k", some "c", some "u"⟩
          cookieHeader := jsTemplate (some "c")
          rbody := removeBody ⟨some "k", some "c", some "u"⟩ (.single "x") } ∧
      sentUrl (uploadImage ⟨some "k", some "c", some "u"⟩ (fun _ => none) 0
        { image := .bufferIn }) = some (website ++ endpoint) :=
  ⟨by decide, by decide,
   (request_routing ⟨some "k", some "c", some "u"⟩ (by decide)).1 (.single "x") (by decide),
   ((request_routing ⟨some "k", some "c", some "u"⟩ (by decide)).2.1
     (fun _ => none) 0 { image := .bufferIn }).1⟩

/-- C9: `config(c)` replaces the whole credential triple with exactly
`(c.key, c.cookie, c.username)`, independently of the previous state — a
field absent from `c` becomes absent in the state. -/
theorem config_replaces_all_fields (c : ApiConfig) (prev prev2 : Creds) :
    config c prev = { key := c.key, cookie := c.cookie, username := c.username } ∧
      config c prev = config c prev2 :=
  ⟨rfl, rfl⟩

end Imgbb
